import Mathlib

/-!
Verification of the neshek schema-definition layer (type-level TypeScript).

The repository's engineering content is compile-time type computation in
`src/src/api/SchemaTypes.ts` plus compile-time test fixtures in
`src/src/test/`.  We shallowly embed the relevant type-level constructs as
executable Lean definitions: a union of string-literal tags becomes an
inductive type together with Boolean membership predicates; a conditional
type chain becomes a function defined by the same chain of tests; the
acceptance of an object literal by an object type (with excess-property
checking) becomes a decidable predicate on association lists.

The utility types (`XOR`, `UnionToIntersection`, `ArrayToUnion`,
`UnionToTuple`) are defined in the utility-types document concatenated into
src/webpack.config.js (lines 89, 102, 113, 121) and are embedded from that
source.  The active `SchemaDef`/`ClassDef` generics are not among the
provided sources (only commented-out copies exist in SchemaTypes.ts, and
the index/TestModel modules are missing); the key-name check is modelled
from the specification text, and the definition says so in its doc
comment.
-/

namespace Neshek

/-- Embeds the union `DataType` from SchemaTypes.ts: all data-type tags,
scalar tags plus "link" | "multilink" | "obj" | "arr" | "any". -/
inductive DataType where
  | str | clob
  | date | time | datetime | timestamp
  | int | bigint | bit | year
  | real | dec
  | bool
  | link | multilink | obj | arr
  | any
deriving DecidableEq, Repr, Fintype

/-- Embeds `StringDataType = "str" | "clob"` as a membership test. -/
def StringDataType (dt : DataType) : Bool :=
  dt = .str || dt = .clob

/-- Embeds `TemporalDataType = "date" | "time" | "datetime" | "timestamp"`. -/
def TemporalDataType (dt : DataType) : Bool :=
  dt = .date || dt = .time || dt = .datetime || dt = .timestamp

/-- Embeds `IntegerDataType = "int" | "bigint" | "bit" | "year"`. -/
def IntegerDataType (dt : DataType) : Bool :=
  dt = .int || dt = .bigint || dt = .bit || dt = .year

/-- Embeds `RealDataType = "real" | "dec"`. -/
def RealDataType (dt : DataType) : Bool :=
  dt = .real || dt = .dec

/-- Embeds `BigintDataType = "bigint" | "bit"`. -/
def BigintDataType (dt : DataType) : Bool :=
  dt = .bigint || dt = .bit

/-- Embeds `NumericDataType = IntegerDataType | RealDataType`. -/
def NumericDataType (dt : DataType) : Bool :=
  IntegerDataType dt || RealDataType dt

/-- Embeds `BoolDataType = "bool"`. -/
def BoolDataType (dt : DataType) : Bool :=
  dt = .bool

/-- Embeds `ScalarDataType = StringDataType | NumericDataType |
TemporalDataType | BoolDataType`. -/
def ScalarDataType (dt : DataType) : Bool :=
  StringDataType dt || NumericDataType dt || TemporalDataType dt || BoolDataType dt

/-- Host-language value categories: the top-level alternatives of the
`LangType` union in SchemaTypes.ts (string, number, bigint, boolean,
array, string-keyed record, null, undefined). -/
inductive LangTy where
  | str | num | bigint | bool | arrTy | recTy | nul | undef
deriving DecidableEq, Repr, Fintype

/-- Embeds `DataTypeOf<T>` from SchemaTypes.ts: the conditional chain
mapping a host-language category to the union of consistent data-type tags
(the union is embedded as a list of tags); the final `undefined` branch
becomes `none`. -/
def DataTypeOf : LangTy → Option (List DataType)
  | .str => some [.str, .clob, .date, .time, .datetime, .timestamp]
  | .num => some [.int, .real, .dec, .year]
  | .bigint => some [.bigint, .bit]
  | .bool => some [.bool]
  | .arrTy => some [.multilink, .arr]
  | .recTy => some [.link, .obj]
  | _ => none

/-- Embeds `LangTypeOf<DT>` from SchemaTypes.ts, restricted to `DataType`
arguments (the source's `undefined`/`null` branches handle arguments outside
`DataType` and are omitted).  The chain order follows the source: the
`BigintDataType` test comes before the `NumericDataType` test, and the final
`never` branch becomes `none`. -/
def LangTypeOf (dt : DataType) : Option LangTy :=
  if StringDataType dt || TemporalDataType dt then some .str
  else if BigintDataType dt then some .bigint
  else if NumericDataType dt then some .num
  else if BoolDataType dt then some .bool
  else if dt = .multilink || dt = .arr then some .arrTy
  else if dt = .link || dt = .obj then some .recTy
  else none

/-! Key-participant types (`KeyPropDataType = ScalarDataType | ClassDef`).
A candidate value type of the `KeyDataType` mapping is either a data-type
tag or the `ClassDef` object type (a class reference). -/

/-- Candidate value types for the `KeyDataType` mapping: a data-type tag, or
the `ClassDef` object type representing a class reference. -/
inductive KeyCandidate where
  | tag (dt : DataType)
  | classRef
deriving DecidableEq, Repr

/-- Embeds the union `KeyPropDataType = ScalarDataType | ClassDef` as a
membership test over candidate types. -/
def KeyPropDataType : KeyCandidate → Bool
  | .tag dt => ScalarDataType dt
  | .classRef => true

/-- Embeds `KeyDataType = \x7b [P: string]: KeyPropDataType \x7d`: an
association list from property name to candidate type is a legal key data
type when each value type is a legal `KeyPropDataType`. -/
def KeyDataType (m : List (String × KeyCandidate)) : Bool :=
  m.all fun p => KeyPropDataType p.2

/-! Property-definition objects.  Each `*PropDef` type in SchemaTypes.ts is
`CommonPropDef` (the `dt` discriminant plus optional `required`/`unique`
Booleans) intersected with a record of optional tag-specific attributes.
Assigning a fresh object literal to such a type requires: the `dt` property
present and equal to the tag, every present property's value of the declared
attribute type, and no property outside the declared set (the
excess-property check on fresh literals).  We embed an object literal as an
association list of attribute values and each `*PropDef` type as the
decidable acceptance predicate this induces. -/

/-- Value categories for property-definition attributes: boolean, number,
bigint, a `[number, number]` pair, regular expression, string list, string,
and a data-type tag (the value of `dt`). -/
inductive AttrVal where
  | aBool (b : Bool)
  | aNum (n : Int)
  | aBigint (n : Int)
  | aNumPair (a b : Int)
  | aRegex (source : String)
  | aStrList (l : List String)
  | aStr (s : String)
  | aDT (dt : DataType)
deriving DecidableEq, Repr

/-- Declared types of property-definition attributes, as they appear in the
`*PropDef` declarations. -/
inductive AttrTy where
  | tBool | tNum | tBigint | tNumOrPair | tRegex | tStrList | tStr
deriving DecidableEq, Repr

/-- Assignability of an attribute value to a declared attribute type.  A
plain number is not assignable to `bigint` and vice versa; `tNumOrPair`
embeds `number | [number, number]`. -/
def AttrVal.hasTy : AttrVal → AttrTy → Bool
  | .aBool _, .tBool => true
  | .aNum _, .tNum => true
  | .aBigint _, .tBigint => true
  | .aNum _, .tNumOrPair => true
  | .aNumPair _ _, .tNumOrPair => true
  | .aRegex _, .tRegex => true
  | .aStrList _, .tStrList => true
  | .aStr _, .tStr => true
  | _, _ => false

/-- An object literal supplied as a property definition: an association list
from attribute name to attribute value. -/
abbrev PropObj := List (String × AttrVal)

/-- An attribute specification: the optional attributes a `*PropDef` type
declares beyond `dt`, each with its declared type. -/
abbrev AttrSpec := List (String × AttrTy)

/-- Embeds `CommonPropDef`'s optional attributes: `required?: boolean` and
`unique?: boolean` (`dt` is handled by the tag check). -/
def commonAttrs : AttrSpec :=
  [("required", .tBool), ("unique", .tBool)]

/-- Acceptance of an object literal by the `*PropDef` type with discriminant
`tag` and optional attributes `spec`: `dt` is present and equals the tag,
and every other property is a declared attribute holding a value of its
declared type (a property outside `spec` is an excess property and is
rejected). -/
def checkPropDef (tag : DataType) (spec : AttrSpec) (o : PropObj) : Bool :=
  (List.lookup "dt" o = some (.aDT tag) : Bool)
  && o.all fun p =>
      p.1 = "dt" ||
      match List.lookup p.1 spec with
      | some ty => p.2.hasTy ty
      | none => false

/-- Embeds `StringPropDef`: `dt: "str"` with optional `minlen`, `maxlen`,
`regex`, `choices`. -/
def StringPropDef (o : PropObj) : Bool :=
  checkPropDef .str
    (commonAttrs ++ [("minlen", .tNum), ("maxlen", .tNum), ("regex", .tRegex),
      ("choices", .tStrList)]) o

/-- Embeds `IntPropDef`: `dt: "int"` with optional `min`, `max`, `step`,
all plain numbers. -/
def IntPropDef (o : PropObj) : Bool :=
  checkPropDef .int
    (commonAttrs ++ [("min", .tNum), ("max", .tNum), ("step", .tNum)]) o

/-- Embeds `BigIntPropDef`: `dt: "bigint"` with optional `min`, `max` of
type bigint. -/
def BigIntPropDef (o : PropObj) : Bool :=
  checkPropDef .bigint
    (commonAttrs ++ [("min", .tBigint), ("max", .tBigint)]) o

/-- Embeds `RealPropDef`: `dt: "real"` with optional `precision`, `min`,
`max`, all plain numbers. -/
def RealPropDef (o : PropObj) : Bool :=
  checkPropDef .real
    (commonAttrs ++ [("precision", .tNum), ("min", .tNum), ("max", .tNum)]) o

/-- Embeds `DecimalPropDef`: `dt: "dec"` with optional
`precision?: number | [number, number]`, `min`, `max`. -/
def DecimalPropDef (o : PropObj) : Bool :=
  checkPropDef .dec
    (commonAttrs ++ [("precision", .tNumOrPair), ("min", .tNum), ("max", .tNum)]) o

/-! The XOR combinator.  Its defining module is the utility-types document
concatenated into src/webpack.config.js (`export type XOR` at line 89):

  type UnionKeys<T> = T extends T ? keyof T : never
  type XOR<T extends any[]> = \x7b
    [i in keyof T]: T[i] & Partial<Record<Exclude<UnionKeys<T[number]>, keyof T[i]>, never>>
  \x7d[number]

Each member shape `T[i]` is intersected with a partial record assigning
`never` to every key of the other shapes that `T[i]` lacks
(`Exclude<UnionKeys<T[number]>, keyof T[i]>`), and the augmented members are
unioned.  We embed the acceptance of a fresh object literal by this union:
an optional `never`-typed property can only be absent, and the literal's
excess-property check runs against the union's known keys, which for every
augmented member equal `UnionKeys` of all shapes. -/

/-- Field types appearing in the XOR test fixtures: string, number,
boolean and string array. -/
inductive Ty where
  | str | num | bool | arrStr
deriving DecidableEq, Repr

/-- Runtime values for the XOR model. -/
inductive Val where
  | vstr (s : String)
  | vnum (n : Int)
  | vbool (b : Bool)
  | varrStr (l : List String)
deriving DecidableEq, Repr

/-- Assignability of a value to a field type. -/
def Val.hasTy : Val → Ty → Bool
  | .vstr _, .str => true
  | .vnum _, .num => true
  | .vbool _, .bool => true
  | .varrStr _, .arrStr => true
  | _, _ => false

/-- An object shape: a list of fields, each a name with its type and an
optionality flag (`true` when the field is optional). -/
abbrev Shape := List (String × Ty × Bool)

/-- An object value: an association list from field name to value. -/
abbrev ObjValue := List (String × Val)

/-- Names of a shape's fields. -/
def fieldNames (s : Shape) : List String :=
  s.map fun f => f.1

/-- Structural conformance of an object value to a shape: every
non-optional field of the shape is present with a value of the declared
type, and every present field that the shape declares holds a value of the
declared type. -/
def conforms (v : ObjValue) (s : Shape) : Bool :=
  (s.all fun f =>
    f.2.2 ||
    match List.lookup f.1 v with
    | some x => x.hasTy f.2.1
    | none => false)
  && v.all fun p =>
      match List.lookup p.1 s with
      | some tb => p.2.hasTy tb.1
      | none => true

/-- Embeds `UnionKeys<T[number]>` (src/webpack.config.js line 66): the keys
of all shapes of the tuple, obtained by distributing `keyof` over the
union. -/
def UnionKeys (shapes : List Shape) : List String :=
  (shapes.map fieldNames).flatten

/-- Embeds `XOR<T>` (src/webpack.config.js line 89) as the acceptance of a
fresh object literal: some augmented member `T[i] & Partial<Record<Exclude<
UnionKeys<T[number]>, keyof T[i]>, never>>` accepts the value — it conforms
to the shape `T[i]` and has no field among the excluded keys (a key of
another shape that `T[i]` lacks), since an optional `never`-typed property
must be absent — and the literal's excess-property check against the
union's known keys (which equal `UnionKeys` for every augmented member)
passes. -/
def XOR (shapes : List Shape) (v : ObjValue) : Bool :=
  (v.all fun p => (UnionKeys shapes).contains p.1)
  && shapes.any fun A =>
      conforms v A
      && v.all fun p =>
          !((UnionKeys shapes).contains p.1 && !((fieldNames A).contains p.1))

/-! Union / tuple conversions, from the utility-types document concatenated
into src/webpack.config.js: `UnionToIntersection` at line 102, `ArrayToUnion
= T[number]` at line 113, `UnionToTuple` at line 121.

A type-level union is embedded as its compiler-internal representation: the
ordered, duplicate-free list of its member types; two such lists denote the
same union exactly when they hold the same members. -/

/-- Embeds `UnionToTuple<T>` (src/webpack.config.js line 121):

  type UnionToTuple<T> =
    UnionToIntersection<T extends never ? never : (t: T) => T> extends (t: T) => infer W
      ? [...UnionToTuple<Exclude<T, W>>, W] : []

The `UnionToIntersection` inference trick makes the compiler infer one
member `W` from the overload set — the last member in the union's internal
order — and the recursion appends it after the tuple of the remaining
members `Exclude<T, W>`; the empty union yields the empty tuple. -/
def UnionToTuple {α : Type} : List α → List α
  | [] => []
  | t :: ts =>
    UnionToTuple (t :: ts).dropLast ++ [(t :: ts).getLast (List.cons_ne_nil t ts)]
termination_by u => u.length
decreasing_by simp [List.length_dropLast]

/-- Embeds `ArrayToUnion<T> = T[number]` (src/webpack.config.js line 113):
the union of the tuple's element types, in its duplicate-free internal
representation. -/
def ArrayToUnion {α : Type} [DecidableEq α] (t : List α) : List α :=
  t.dedup

/-- Modelled from the spec: the key-name constraint of `SchemaDef` /
`ClassDef` (active definitions absent from src/).  A class definition's
`key` is a list of property names, each of which must name a property of
the class shape. -/
def classKeyOk (props : List String) (key : List String) : Bool :=
  key.all fun k => props.contains k

/-- Modelled from the spec: the schema-level key check of `SchemaDef` —
every class's key names only properties of that class's shape. -/
def SchemaDef (classes : List (List String × List String)) : Bool :=
  classes.all fun c => classKeyOk c.1 c.2

/-- Property names of the fixture class shape `Order` (TestSchema.ts). -/
def OrderProps : List String := ["id", "time", "items"]

/-- Property names of the fixture class shape `Product` (TestSchema.ts). -/
def ProductProps : List String := ["code", "name", "msrp", "items"]

/-- Property names of the fixture class shape `Item` (TestSchema.ts). -/
def ItemProps : List String :=
  ["order", "product", "qty", "price", "abc", "xyz", "klm"]

/-- The fixture shape `User` from TestUtilTypes.ts:
`\x7busername: string, name: string, first?: string\x7d`. -/
def User : Shape :=
  [("username", (.str, false)), ("name", (.str, false)), ("first", (.str, true))]

/-- The fixture shape `Group` from TestUtilTypes.ts:
`\x7bname: string, members?: string[]\x7d`. -/
def Group : Shape :=
  [("name", (.str, false)), ("members", (.arrStr, true))]

/-- The fixture value `o2` from TestUtilTypes.ts, mixing fields from both
shapes (expected to be rejected by XOR). -/
def o2 : ObjValue :=
  [("username", .vstr "a"), ("name", .vstr "b"), ("members", .varrStr [])]

/-- The fixture value `o3` from TestUtilTypes.ts, using only User fields. -/
def o3 : ObjValue :=
  [("username", .vstr "a"), ("name", .vstr "b")]

/-- The fixture value `o4` from TestUtilTypes.ts, using only Group fields. -/
def o4 : ObjValue :=
  [("name", .vstr "c"), ("members", .varrStr [])]

/-- Shapes used by the C9 witness: two shapes sharing the required field
"name" of the same type, each with its own optional exclusive field. -/
def SharedA : Shape :=
  [("name", (.str, false)), ("onlyA", (.str, true))]

/-- Second shape of the C9 witness fixture. -/
def SharedB : Shape :=
  [("name", (.str, false)), ("onlyB", (.num, true))]

/-! Claim theorems. -/

/-- Helper: a property definition object containing an attribute that the
type either does not declare or declares at a different type is rejected. -/
theorem checkPropDef_attr_false (tag : DataType) (spec : AttrSpec) (o : PropObj)
    (k : String) (v : AttrVal) (hmem : (k, v) ∈ o) (hkdt : k ≠ "dt")
    (hbad : (match List.lookup k spec with
             | some ty => v.hasTy ty
             | none => false) = false) :
    checkPropDef tag spec o = false := by
  rw [Bool.eq_false_iff]
  intro h
  unfold checkPropDef at h
  rw [Bool.and_eq_true, List.all_eq_true] at h
  have h2 : (decide (k = "dt") ||
      match List.lookup k spec with
      | some ty => v.hasTy ty
      | none => false) = true := h.2 (k, v) hmem
  rw [Bool.or_eq_true] at h2
  rcases h2 with h2 | h2
  · exact hkdt (by simpa using h2)
  · rw [hbad] at h2
    exact Bool.false_ne_true h2

/-- C2: with the fixture class shapes Order, Product and Item, the schema
assigning key ["id"] to Order, ["code"] to Product and ["order","product"]
to Item is accepted by the SchemaDef key check, while a key containing the
name "missingField" is rejected for each of the three classes. -/
theorem c2_schema_keys :
    SchemaDef [(OrderProps, ["id"]), (ProductProps, ["code"]),
      (ItemProps, ["order", "product"])] = true ∧
    classKeyOk OrderProps ["missingField"] = false ∧
    classKeyOk ProductProps ["missingField"] = false ∧
    classKeyOk ItemProps ["missingField"] = false := by
  decide

/-- C7: a tag is listed in DataTypeOf of a host category exactly when
LangTypeOf maps the tag to that category, so an ambiguous host category
receives the union of all consistent tags; in particular DataTypeOf of the
plain number category is exactly "int" | "real" | "dec" | "year". -/
theorem c7_dataTypeOf_number :
    (∀ (lt : LangTy) (dt : DataType),
      dt ∈ (DataTypeOf lt).getD [] ↔ LangTypeOf dt = some lt) ∧
    DataTypeOf .num = some [.int, .real, .dec, .year] := by
  constructor
  · decide
  · rfl

/-- C8: every candidate accepted by KeyPropDataType is either a scalar
data-type tag or the class-reference type; the "obj", "arr" and "multilink"
tags are rejected, and a KeyDataType mapping using such a tag is rejected. -/
theorem c8_key_participants :
    (∀ c : KeyCandidate, KeyPropDataType c = true →
      c = .classRef ∨ ∃ dt, c = .tag dt ∧ ScalarDataType dt = true) ∧
    KeyPropDataType (.tag .obj) = false ∧
    KeyPropDataType (.tag .arr) = false ∧
    KeyPropDataType (.tag .multilink) = false ∧
    KeyDataType [("p", .tag .arr)] = false ∧
    KeyDataType [("p", .tag .obj)] = false := by
  refine ⟨?_, by decide, by decide, by decide, by decide, by decide⟩
  intro c h
  cases c with
  | classRef => exact Or.inl rfl
  | tag dt => exact Or.inr ⟨dt, rfl, h⟩

/-- Witness for C8 at the concrete candidate "int" tag. -/
theorem c8_key_participants_witness :
    KeyPropDataType (.tag .int) = true ∧
    (KeyCandidate.tag .int = .classRef ∨
      ∃ dt, KeyCandidate.tag .int = .tag dt ∧ ScalarDataType dt = true) :=
  ⟨by decide, c8_key_participants.1 (.tag .int) (by decide)⟩

/-- C10: every scalar data-type tag is a member of the tag union that
DataTypeOf returns for the host category LangTypeOf assigns to it; the
round-trip through the host language recovers a union containing the
original tag. -/
theorem c10_tag_roundtrip :
    ∀ dt : DataType, ScalarDataType dt = true →
      dt ∈ ((LangTypeOf dt).bind DataTypeOf).getD [] := by
  decide

/-- Witness for C10 at the concrete tag "bit". -/
theorem c10_tag_roundtrip_witness :
    ScalarDataType .bit = true ∧
    DataType.bit ∈ ((LangTypeOf .bit).bind DataTypeOf).getD [] :=
  ⟨by decide, c10_tag_roundtrip .bit (by decide)⟩

/-- C5: a property definition tagged "str" accepts the extra attributes
minlen, maxlen, regex and choices; any definition carrying the attribute
"precision" (exclusive to other tags) is rejected by StringPropDef; a
definition tagged "dec" accepts a precision that is a single number and
also one that is a two-number pair. -/
theorem c5_str_dec_propdefs :
    StringPropDef [("dt", .aDT .str), ("required", .aBool true),
      ("minlen", .aNum 1), ("maxlen", .aNum 8), ("regex", .aRegex "abc"),
      ("choices", .aStrList ["a", "b"])] = true ∧
    (∀ (o : PropObj) (v : AttrVal), ("precision", v) ∈ o →
      StringPropDef o = false) ∧
    DecimalPropDef [("dt", .aDT .dec), ("min", .aNum 0),
      ("precision", .aNum 10)] = true ∧
    DecimalPropDef [("dt", .aDT .dec), ("min", .aNum 0),
      ("precision", .aNumPair 10 2)] = true := by
  refine ⟨by decide, ?_, by decide, by decide⟩
  intro o v hmem
  exact checkPropDef_attr_false _ _ o "precision" v hmem (by decide) rfl

/-- Witness for C5 at a concrete "str"-tagged definition carrying a
precision attribute. -/
theorem c5_str_dec_propdefs_witness :
    (("precision", AttrVal.aNum 5) ∈
      ([("dt", .aDT .str), ("precision", .aNum 5)] : PropObj)) ∧
    StringPropDef [("dt", .aDT .str), ("precision", .aNum 5)] = false :=
  ⟨by decide, c5_str_dec_propdefs.2.1
    [("dt", .aDT .str), ("precision", .aNum 5)] (.aNum 5) (by decide)⟩

/-- C6: min/max bounds typed as plain numbers are accepted on "int" and
"real" definitions, bounds typed as bigint are accepted on "bigint"
definitions, and mixing is rejected in both directions: a plain-number
bound on a "bigint" definition and a bigint bound on an "int" definition
both fail. -/
theorem c6_numeric_bounds :
    IntPropDef [("dt", .aDT .int), ("min", .aNum 0), ("max", .aNum 100),
      ("step", .aNum 5)] = true ∧
    RealPropDef [("dt", .aDT .real), ("min", .aNum 0),
      ("max", .aNum 10)] = true ∧
    BigIntPropDef [("dt", .aDT .bigint), ("min", .aBigint 0),
      ("max", .aBigint 900)] = true ∧
    (∀ (o : PropObj) (n : Int), ("min", AttrVal.aNum n) ∈ o →
      BigIntPropDef o = false) ∧
    (∀ (o : PropObj) (n : Int), ("min", AttrVal.aBigint n) ∈ o →
      IntPropDef o = false) := by
  refine ⟨by decide, by decide, by decide, ?_, ?_⟩
  · intro o n hmem
    exact checkPropDef_attr_false _ _ o "min" (.aNum n) hmem (by decide) rfl
  · intro o n hmem
    exact checkPropDef_attr_false _ _ o "min" (.aBigint n) hmem (by decide) rfl

/-- Witness for C6 at concrete mixed-bound definitions. -/
theorem c6_numeric_bounds_witness :
    (("min", AttrVal.aNum 3) ∈
      ([("dt", .aDT .bigint), ("min", .aNum 3)] : PropObj)) ∧
    BigIntPropDef [("dt", .aDT .bigint), ("min", .aNum 3)] = false ∧
    IntPropDef [("dt", .aDT .int), ("min", .aBigint 3)] = false :=
  ⟨by decide, c6_numeric_bounds.2.2.2.1 _ 3 (by decide),
    c6_numeric_bounds.2.2.2.2 _ 3 (by decide)⟩

/-- Helper: the UnionToTuple recursion enumerates exactly the members of
the union's internal representation, in order — each step splits off the
last member and recurses on the rest. -/
theorem unionToTuple_eq {α : Type} : ∀ u : List α, UnionToTuple u = u
  | [] => by rw [UnionToTuple]
  | t :: ts => by
    rw [UnionToTuple, unionToTuple_eq (t :: ts).dropLast,
      List.dropLast_append_getLast (List.cons_ne_nil t ts)]
termination_by u => u.length
decreasing_by simp [List.length_dropLast]

/-- C3: ArrayToUnion applied to UnionToTuple of any union re-derives the
original union (unions represented as duplicate-free member lists), and
UnionToTuple of a two-member union is a tuple with exactly two elements. -/
theorem c3_union_tuple_roundtrip :
    (∀ (α : Type) [DecidableEq α] (u : List α), u.Nodup →
      ArrayToUnion (UnionToTuple u) = u) ∧
    (∀ (α : Type) [DecidableEq α] (u : List α), u.Nodup → u.length = 2 →
      (UnionToTuple u).length = 2) := by
  constructor
  · intro α _ u hu
    rw [ArrayToUnion, unionToTuple_eq]
    exact List.dedup_eq_self.mpr hu
  · intro α _ u _ h
    rw [unionToTuple_eq]
    exact h

/-- Witness for C3 at the two-member union of the literal types "a" and "b"
(the ut1 fixture of the utility-types document). -/
theorem c3_union_tuple_roundtrip_witness :
    ArrayToUnion (UnionToTuple ["a", "b"]) = ["a", "b"] ∧
    (UnionToTuple (["a", "b"] : List String)).length = 2 :=
  ⟨c3_union_tuple_roundtrip.1 String ["a", "b"] (by decide),
    c3_union_tuple_roundtrip.2 String ["a", "b"] (by decide) (by decide)⟩

/-- Helper: a field of any member shape is among the union's keys. -/
theorem mem_unionKeys (shapes : List Shape) (A : Shape) (hA : A ∈ shapes)
    (k : String) (hk : k ∈ fieldNames A) : k ∈ UnionKeys shapes := by
  rw [UnionKeys, List.mem_flatten]
  exact ⟨fieldNames A, List.mem_map_of_mem _ hA, hk⟩

/-- Helper: XOR accepts a value as soon as some member shape declares all
of the value's fields and the value conforms to it. -/
theorem xor_accepts (shapes : List Shape) (A : Shape) (v : ObjValue)
    (hA : A ∈ shapes)
    (h1 : (v.all fun p => (fieldNames A).contains p.1) = true)
    (h2 : conforms v A = true) :
    XOR shapes v = true := by
  have hfields : ∀ p ∈ v, p.1 ∈ fieldNames A := by
    intro p hp
    exact List.elem_iff.mp ((List.all_eq_true.mp h1) p hp)
  rw [XOR, Bool.and_eq_true]
  constructor
  · rw [List.all_eq_true]
    intro p hp
    have hc : (UnionKeys shapes).contains p.1 = true :=
      List.elem_iff.mpr (mem_unionKeys shapes A hA p.1 (hfields p hp))
    exact hc
  · rw [List.any_eq_true]
    refine ⟨A, hA, ?_⟩
    show (conforms v A && v.all fun p =>
      !((UnionKeys shapes).contains p.1 && !((fieldNames A).contains p.1))) = true
    rw [h2, Bool.true_and, List.all_eq_true]
    intro p hp
    have hc : (fieldNames A).contains p.1 = true :=
      List.elem_iff.mpr (hfields p hp)
    show (!((UnionKeys shapes).contains p.1 && !((fieldNames A).contains p.1))) = true
    rw [hc]
    simp

/-- Helper: an augmented member of an XOR rejects any value containing a
union key that the member's shape does not declare (the field is excluded
there, so its type is the `never` sentinel). -/
theorem xor_member_rejects (shapes : List Shape) (A : Shape) (v : ObjValue)
    (b : String) (y : Val) (hmem : (b, y) ∈ v)
    (hbU : b ∈ UnionKeys shapes) (hbA : b ∉ fieldNames A) :
    (conforms v A && v.all fun p =>
      !((UnionKeys shapes).contains p.1 && !((fieldNames A).contains p.1))) = false := by
  rw [Bool.eq_false_iff]
  intro h
  rw [Bool.and_eq_true, List.all_eq_true] at h
  have h2 : (!((UnionKeys shapes).contains b && !((fieldNames A).contains b))) = true :=
    h.2 (b, y) hmem
  have hc1 : (UnionKeys shapes).contains b = true := List.elem_iff.mpr hbU
  have hc2 : (fieldNames A).contains b = false := by
    rw [Bool.eq_false_iff]
    exact fun hh => hbA (List.elem_iff.mp hh)
  rw [hc1, hc2] at h2
  simp at h2

/-- C1: for shapes A and B, XOR of [A, B] accepts a value whose fields all
belong to A and which conforms to A, likewise for B, and rejects any value
containing both a field exclusive to A and a field exclusive to B. -/
theorem c1_xor_pair (A B : Shape) (vA vB w : ObjValue) (a b : String)
    (hvA1 : (vA.all fun p => (fieldNames A).contains p.1) = true)
    (hvA2 : conforms vA A = true)
    (hvB1 : (vB.all fun p => (fieldNames B).contains p.1) = true)
    (hvB2 : conforms vB B = true)
    (ha : a ∈ fieldNames A) (haB : a ∉ fieldNames B)
    (hb : b ∈ fieldNames B) (hbA : b ∉ fieldNames A)
    (hwa : ∃ x, (a, x) ∈ w) (hwb : ∃ y, (b, y) ∈ w) :
    XOR [A, B] vA = true ∧ XOR [A, B] vB = true ∧ XOR [A, B] w = false := by
  refine ⟨xor_accepts [A, B] A vA (by simp) hvA1 hvA2,
    xor_accepts [A, B] B vB (by simp) hvB1 hvB2, ?_⟩
  obtain ⟨x, hx⟩ := hwa
  obtain ⟨y, hy⟩ := hwb
  have haU : a ∈ UnionKeys [A, B] := mem_unionKeys [A, B] A (by simp) a ha
  have hbU : b ∈ UnionKeys [A, B] := mem_unionKeys [A, B] B (by simp) b hb
  rw [Bool.eq_false_iff]
  intro h
  rw [XOR, Bool.and_eq_true, List.any_eq_true] at h
  obtain ⟨S, hS, hSt⟩ := h.2
  rcases List.mem_pair.mp hS with h1 | h1
  · rw [h1] at hSt
    have hSt' : (conforms w A && w.all fun p =>
        !((UnionKeys [A, B]).contains p.1 && !((fieldNames A).contains p.1))) = true := hSt
    rw [xor_member_rejects [A, B] A w b y hy hbU hbA] at hSt'
    exact Bool.false_ne_true hSt'
  · rw [h1] at hSt
    have hSt' : (conforms w B && w.all fun p =>
        !((UnionKeys [A, B]).contains p.1 && !((fieldNames B).contains p.1))) = true := hSt
    rw [xor_member_rejects [A, B] B w a x hx haU haB] at hSt'
    exact Bool.false_ne_true hSt'

/-- Witness for C1 at the TestUtilTypes.ts fixture: XOR of [User, Group]
accepts o3 (User fields only) and o4 (Group fields only) and rejects o2
(mixes the exclusive fields "username" and "members"). -/
theorem c1_xor_pair_witness :
    XOR [User, Group] o3 = true ∧ XOR [User, Group] o4 = true ∧
    XOR [User, Group] o2 = false :=
  c1_xor_pair User Group o3 o4 o2 "username" "members"
    (by decide) (by decide) (by decide) (by decide)
    (by decide) (by decide) (by decide) (by decide)
    ⟨.vstr "a", by decide⟩ ⟨.varrStr [], by decide⟩

/-- C9: when every field of a value is declared by every shape of the
collection (a shared field is exclusive to no shape), the value is accepted
by XOR as soon as it conforms to any one shape of the collection, whichever
shape that is. -/
theorem c9_xor_shared (shapes : List Shape) (A : Shape) (v : ObjValue)
    (hA : A ∈ shapes)
    (hshared : ∀ S ∈ shapes, ∀ p ∈ v, p.1 ∈ fieldNames S)
    (hconf : conforms v A = true) :
    XOR shapes v = true := by
  refine xor_accepts shapes A v hA ?_ hconf
  rw [List.all_eq_true]
  intro p hp
  exact List.elem_iff.mpr (hshared A hA p hp)

/-- Witness for C9 at two shapes sharing the required field "name": the
value setting only the shared field is accepted. -/
theorem c9_xor_shared_witness :
    XOR [SharedA, SharedB] [("name", .vstr "x")] = true :=
  c9_xor_shared [SharedA, SharedB] SharedA [("name", .vstr "x")]
    (by decide) (by decide) (by decide)

end Neshek
